import Mathlib

/-!
Verification development for the Kalshi alpha-suite trading pipeline.

Shallow embedding notes:
* Python floats are modelled as exact rationals (`ℚ`); arithmetic is the
  idealized real arithmetic the code's formulas denote.
* Python `int(x)` truncates toward zero (`ratTrunc`); Python `round(x, n)`
  rounds half-to-even at `n` decimal places (`roundDec`).
* Network, clock and file effects are externalized: HTTP responses, parsed
  JSON values and orderbook arrays are inputs; file appends and outbound
  POSTs are accumulated in explicit state.
* Human-readable rationale strings built with f-string formatting in the
  source are modelled by fixed labels; no claim depends on their text.
-/

/-- Truncation toward zero, the semantics of Python `int()` on a float. -/
def ratTrunc (q : ℚ) : ℤ :=
  if 0 ≤ q then ⌊q⌋ else -⌊-q⌋

/-- Round to nearest integer, ties to even: the semantics of Python `round`. -/
def roundHalfEven (q : ℚ) : ℤ :=
  if q - (⌊q⌋ : ℚ) < 1/2 then ⌊q⌋
  else if 1/2 < q - (⌊q⌋ : ℚ) then ⌊q⌋ + 1
  else if ⌊q⌋ % 2 = 0 then ⌊q⌋ else ⌊q⌋ + 1

/-- Python `round(q, n)`: round half-to-even at `n` decimal places. -/
def roundDec (n : ℕ) (q : ℚ) : ℚ :=
  (roundHalfEven (q * 10 ^ n) : ℚ) / 10 ^ n

/-! ## Data model (`kalshi_alpha_suite/models.py`) -/

/-- `models.Side`. -/
inductive Side where
  | yes
  | no
deriving DecidableEq, Repr

/-- `Side.value`: the string payload of the enum member. -/
def Side.value : Side → String
  | .yes => "yes"
  | .no => "no"

/-- `models.SignalSource`. -/
inductive SignalSource where
  | orderbook
  | nlp
  | arbitrage
deriving DecidableEq, Repr

/-- `SignalSource.value`. -/
def SignalSource.value : SignalSource → String
  | .orderbook => "orderbook"
  | .nlp => "nlp"
  | .arbitrage => "arbitrage"

/-- `models.Signal` (creation timestamp elided: wall-clock effect). -/
structure Signal where
  source : SignalSource
  ticker : String
  side : Side
  implied_prob : ℚ
  estimated_fair_prob : ℚ
  edge : ℚ
  confidence : ℚ
  rationale : String := ""
deriving DecidableEq, Repr

/-- `models.OrderbookSnapshot` (timestamp elided). -/
structure OrderbookSnapshot where
  ticker : String
  best_yes_bid : ℤ
  best_no_bid : ℤ
  synthetic_yes_ask : ℤ
  spread_cents : ℤ
deriving DecidableEq, Repr

/-- `models.KellyResult`. -/
structure KellyResult where
  optimal_fraction : ℚ
  position_size_usd : ℚ
  net_ev : ℚ
  should_trade : Bool
deriving DecidableEq, Repr

/-- `models.TradeOrder` (timestamp carried as an opaque string). -/
structure TradeOrder where
  ticker : String
  side : Side
  contracts : ℤ
  limit_price_cents : ℤ
  signal : Signal
  kelly : KellyResult
  paper : Bool := true
  order_id : Option String := none
  fill_price_cents : Option ℤ := none
  timestamp : String := ""
deriving DecidableEq, Repr

/-- `config.SuiteConfig`, execution-parameter fields only (credential and
URL strings play no part in any claim and are elided). -/
structure SuiteConfig where
  paper_trading : Bool := true
  kalshi_fee_rate : ℚ := 7/100
  spread_threshold_cents : ℤ := 3
  kelly_edge_min : ℚ := 5/100
  nlp_prob_shift_min : ℚ := 1/10
  max_position_usd : ℚ := 500
  kelly_fraction : ℚ := 1/4
deriving DecidableEq, Repr

/-! ## Risk & Execution agent (`agents/risk_execution_agent.py`) -/

/-- `risk_execution_agent.kelly_fraction`: pure Kelly fraction with the
`b <= 0` guard returning `0.0`. -/
def kelly_fraction (p b : ℚ) : ℚ :=
  if b ≤ 0 then 0 else (p * (b + 1) - 1) / b

/-- `risk_execution_agent.net_payout_after_fees`. -/
def net_payout_after_fees (gross_b fee_rate : ℚ) : ℚ :=
  gross_b * (1 - fee_rate)

/-- The side-dependent win probability `p` chosen at the top of
`RiskExecutionAgent.size`: the fair YES probability for a YES signal, its
complement for a NO signal. -/
def sideProb (signal : Signal) : ℚ :=
  match signal.side with
  | .yes => signal.estimated_fair_prob
  | .no => 1 - signal.estimated_fair_prob

/-- The side-dependent `market_price` chosen at the top of
`RiskExecutionAgent.size`. -/
def sideMarketPrice (signal : Signal) : ℚ :=
  match signal.side with
  | .yes => signal.implied_prob
  | .no => 1 - signal.implied_prob

namespace RiskExecutionAgent

/-- `RiskExecutionAgent.size` (lines 61-111). -/
def size (cfg : SuiteConfig) (signal : Signal) (bankroll_usd : ℚ) : KellyResult :=
  let p := sideProb signal
  let market_price := sideMarketPrice signal
  if market_price ≤ 0 ∨ 1 ≤ market_price then
    { optimal_fraction := 0, position_size_usd := 0, net_ev := 0, should_trade := false }
  else
    let gross_b := 1 / market_price - 1
    let b := net_payout_after_fees gross_b cfg.kalshi_fee_rate
    let f_star := kelly_fraction p b
    let f_used := max 0 (f_star * cfg.kelly_fraction)
    let position_usd := min (f_used * bankroll_usd) cfg.max_position_usd
    let net_ev := p * b - (1 - p)
    let should_trade :=
      decide (cfg.kelly_edge_min < f_star) && decide (0 < net_ev) && decide (0 < position_usd)
    { optimal_fraction := f_star,
      position_size_usd := roundDec 2 position_usd,
      net_ev := roundDec 4 net_ev,
      should_trade := should_trade }

/-- `RiskExecutionAgent.build_order` (lines 117-138).  Python `int(...)`
truncates, and `max(1, min(99, ...))` clamps. -/
def build_order (cfg : SuiteConfig) (signal : Signal) (kelly : KellyResult) :
    Option TradeOrder :=
  if kelly.should_trade then
    let price0 := ratTrunc (signal.implied_prob * 100)
    let price1 := if signal.side = .no then 100 - price0 else price0
    let price_cents := max 1 (min 99 price1)
    let contracts := max 1 (ratTrunc (kelly.position_size_usd * 100 / (price_cents : ℚ)))
    some { ticker := signal.ticker, side := signal.side, contracts := contracts,
           limit_price_cents := price_cents, signal := signal, kelly := kelly,
           paper := cfg.paper_trading }
  else
    none

end RiskExecutionAgent

/-! ## Orderbook agent (`agents/orderbook_agent.py`) -/

/-- `bids[0][0] if bids else 0`: best (first) price of a bid array. -/
def bestBid (bids : List (ℤ × ℤ)) : ℤ :=
  match bids with
  | [] => 0
  | (price, _) :: _ => price

/-- `orderbook_agent._parse_orderbook` (lines 25-57), taking the already
extracted `yes` / `no` arrays of `[price_cents, quantity]` pairs. -/
def parse_orderbook (ticker : String) (yes_bids no_bids : List (ℤ × ℤ)) :
    Option OrderbookSnapshot :=
  if yes_bids = [] ∧ no_bids = [] then none
  else
    let best_yes_bid := bestBid yes_bids
    let best_no_bid := bestBid no_bids
    let synthetic_yes_ask := if 0 < best_no_bid then 100 - best_no_bid else 100
    let spread := synthetic_yes_ask - best_yes_bid
    some { ticker := ticker, best_yes_bid := best_yes_bid, best_no_bid := best_no_bid,
           synthetic_yes_ask := synthetic_yes_ask, spread_cents := spread }

/-- `OrderbookAgent.scan_market` (lines 68-110), with the orderbook fetch
externalized to the `yes_bids` / `no_bids` inputs (a failed fetch returns
`None` before this logic runs).  The rationale f-string is modelled by a
fixed label. -/
def scan_market (cfg : SuiteConfig) (ticker : String)
    (yes_bids no_bids : List (ℤ × ℤ)) : Option Signal :=
  match parse_orderbook ticker yes_bids no_bids with
  | none => none
  | some snap =>
    if snap.spread_cents ≤ cfg.spread_threshold_cents then none
    else
      let midpoint := ((snap.best_yes_bid : ℚ) + (snap.synthetic_yes_ask : ℚ)) / 2 / 100
      let implied := if snap.best_yes_bid = 0 then (1 : ℚ)/2 else (snap.best_yes_bid : ℚ) / 100
      some { source := .orderbook, ticker := ticker, side := .yes,
             implied_prob := implied, estimated_fair_prob := midpoint,
             edge := midpoint - implied,
             confidence := min ((snap.spread_cents : ℚ) / 10) 1,
             rationale := "Liquidity void" }

/-! ## NLP agent (`agents/nlp_agent.py`) -/

/-- `nlp_agent.NLPSignalRaw`. -/
structure NLPSignalRaw where
  ticker_keyword : String
  side : String
  prob_shift : ℚ
  confidence : ℚ
  rationale : String
deriving DecidableEq, Repr

/-- A parsed JSON value, the result of Python `json.loads`. -/
inductive Json where
  | null
  | bool (b : Bool)
  | num (q : ℚ)
  | str (s : String)
  | arr (items : List Json)
  | obj (fields : List (String × Json))

/-- Dictionary lookup `item[key]` / `item.get(key)` on a JSON object. -/
def Json.get : Json → String → Option Json
  | .obj fields, key => fields.lookup key
  | _, _ => none

/-- Python `float(x)` on a JSON-decoded value.  Numbers and booleans
convert; numeric strings (accepted by Python but never produced by the
prompts in play) are not modelled and fail like other types. -/
def pyFloat : Json → Option ℚ
  | .num q => some q
  | .bool b => some (if b then 1 else 0)
  | _ => none

/-- One iteration of the item loop in `NLPAgent.analyze_headline`
(lines 122-136): build an `NLPSignalRaw`, skipping the item when a key is
missing or a float conversion fails (`KeyError`/`TypeError`/`ValueError`). -/
def parseRawItem (item : Json) : Option NLPSignalRaw := do
  let tk ← item.get "ticker_keyword"
  let tkS ← match tk with | .str s => some s | _ => none
  let sd ← item.get "side"
  let sdS ← match sd with | .str s => some s | _ => none
  let ps ← item.get "prob_shift"
  let psQ ← pyFloat ps
  let cf ← item.get "confidence"
  let cfQ ← pyFloat cf
  let ratl := match item.get "rationale" with
    | some (.str s) => s
    | _ => ""
  some { ticker_keyword := tkS, side := sdS, prob_shift := psQ,
         confidence := cfQ, rationale := ratl }

/-- `NLPAgent.analyze_headline`, response-handling part (lines 112-136):
`none` is a `json.JSONDecodeError` (response discarded with a warning);
a decoded non-array value is wrapped into a one-element list
(`parsed = [parsed]`) before the item loop. -/
def analyze_response (parsed : Option Json) : List NLPSignalRaw :=
  match parsed with
  | none => []
  | some v =>
    let items := match v with
      | .arr xs => xs
      | other => [other]
    items.filterMap parseRawItem

/-- Signal construction in `NLPAgent.run` (lines 191-203) for one resolved
ticker of one raw item. -/
def nlp_emit_signal (feed_name : String) (raw : NLPSignalRaw) (ticker : String) :
    Signal :=
  let side := if 0 < raw.prob_shift then Side.yes else Side.no
  { source := .nlp, ticker := ticker, side := side,
    implied_prob := 1/2,
    estimated_fair_prob := 1/2 + raw.prob_shift,
    edge := |raw.prob_shift|,
    confidence := raw.confidence,
    rationale := "[" ++ feed_name ++ "] " ++ raw.rationale }

/-! ## Arbitrage agent (`agents/arbitrage_agent.py`) -/

/-- `arbitrage_agent.kelly_criterion` (lines 24-39): identical body to
`kelly_fraction`, kept separate because the source defines it twice. -/
def kelly_criterion (p b : ℚ) : ℚ :=
  if b ≤ 0 then 0 else (p * (b + 1) - 1) / b

/-- Tail of the pair-loop body in `ArbitrageAgent.scan` (lines 160-182),
shared by both sides once `side`, `p`, `market_price` and `edge` have been
assigned: reject a degenerate Kalshi price, compute `b` and the Kelly
fraction, drop sub-threshold fractions, and emit the signal. -/
def arbEmit (cfg : SuiteConfig) (ticker : String) (side : Side)
    (p market_price edge kalshi_prob ext_prob : ℚ) : Option Signal :=
  if market_price ≤ 0 ∨ 1 ≤ market_price then none
  else
    let b := 1 / market_price - 1
    let f_star := kelly_criterion p b
    if f_star < cfg.kelly_edge_min then none
    else
      some { source := .arbitrage, ticker := ticker, side := side,
             implied_prob := kalshi_prob,
             estimated_fair_prob := if side = .yes then ext_prob else 1 - ext_prob,
             edge := edge,
             confidence := min f_star 1,
             rationale := "Cross-platform arb" }

/-- One iteration of the pair loop in `ArbitrageAgent.scan` (lines 128-183),
after the probabilities have been extracted from the two market records:
positive edge trades YES against the Kalshi price, negative edge trades NO
against its complement, zero edge is skipped. -/
def arb_pair_signal (cfg : SuiteConfig) (ticker : String)
    (kalshi_prob ext_prob : ℚ) : Option Signal :=
  let edge := ext_prob - kalshi_prob
  if 0 < edge then
    arbEmit cfg ticker .yes ext_prob kalshi_prob edge kalshi_prob ext_prob
  else if edge < 0 then
    arbEmit cfg ticker .no (1 - ext_prob) (1 - kalshi_prob) |edge| kalshi_prob ext_prob
  else
    none

/-! ## Execution effects (`RiskExecutionAgent.execute`, lines 144-200) -/

/-- One JSONL record of the paper trade journal (`_paper_execute`). -/
structure TradeRecord where
  timestamp : String
  ticker : String
  side : String
  contracts : ℤ
  limit_price_cents : ℤ
  fill_price_cents : ℤ
  kelly_f_star : ℚ
  position_usd : ℚ
  net_ev : ℚ
  source : String
  rationale : String
  paper : Bool
deriving DecidableEq, Repr

/-- Body of a `POST /portfolio/orders` request (`KalshiClient.place_order`). -/
structure OrderPostBody where
  ticker : String
  action : String
  side : String
  order_type : String
  count : ℤ
  yes_price : Option ℤ
  no_price : Option ℤ
deriving DecidableEq, Repr

/-- Observable effects of execution: the trade journal file (one element
per appended JSONL line) and the outbound order POSTs. -/
structure ExecState where
  journal : List TradeRecord
  posts : List OrderPostBody
deriving DecidableEq, Repr

/-- The record dict literal in `_paper_execute` (lines 153-166), built from
the order after its fill price has been set to the limit price. -/
def paperRecord (order : TradeOrder) : TradeRecord :=
  { timestamp := order.timestamp,
    ticker := order.ticker,
    side := order.side.value,
    contracts := order.contracts,
    limit_price_cents := order.limit_price_cents,
    fill_price_cents := order.limit_price_cents,
    kelly_f_star := roundDec 4 order.kelly.optimal_fraction,
    position_usd := order.kelly.position_size_usd,
    net_ev := order.kelly.net_ev,
    source := order.signal.source.value,
    rationale := order.signal.rationale,
    paper := true }

namespace RiskExecutionAgent

/-- `RiskExecutionAgent._paper_execute` (lines 150-178): set the simulated
fill, append one JSONL line, touch nothing else. -/
def paper_execute (order : TradeOrder) (st : ExecState) : TradeOrder × ExecState :=
  let filled := { order with fill_price_cents := some order.limit_price_cents }
  (filled, { st with journal := st.journal ++ [paperRecord filled] })

/-- `RiskExecutionAgent._live_execute` (lines 180-200): POST the order body
(the response's `order_id` and submission failures are external and leave
the modelled state unchanged beyond the recorded POST). -/
def live_execute (order : TradeOrder) (st : ExecState) : TradeOrder × ExecState :=
  let price : Option ℤ × Option ℤ :=
    if order.side = .yes then (some order.limit_price_cents, none)
    else (none, some order.limit_price_cents)
  let body : OrderPostBody :=
    { ticker := order.ticker, action := "buy", side := order.side.value,
      order_type := "limit", count := order.contracts,
      yes_price := price.1, no_price := price.2 }
  (order, { st with posts := st.posts ++ [body] })

/-- `RiskExecutionAgent.execute` (lines 144-148). -/
def execute (order : TradeOrder) (st : ExecState) : TradeOrder × ExecState :=
  if order.paper then paper_execute order st else live_execute order st

end RiskExecutionAgent

/-! ## Orchestrator (`orchestrator.py`, `run_cycle`, lines 46-93) -/

/-- An uncaught Python exception escaping a producer task. -/
inductive ProducerErr where
  | exn (message : String)
deriving DecidableEq, Repr

/-- Signal collection of `run_cycle`: `asyncio.gather(ob, nlp, arb,
return_exceptions=False)` re-raises the first producer exception, so an
error in any producer aborts the whole cycle; only when all three succeed
do the `isinstance(..., list)` guards run (they are then always true) and
the lists are concatenated for sizing. -/
def run_cycle_signals (ob nlp arb : Except ProducerErr (List Signal)) :
    Except ProducerErr (List Signal) :=
  match ob, nlp, arb with
  | .error e, _, _ => .error e
  | _, .error e, _ => .error e
  | _, _, .error e => .error e
  | .ok a, .ok b, .ok c => .ok (a ++ b ++ c)

/-! ## Exchange gateway (`kalshi_client/client.py` and
`kalshi_alpha_suite/kalshi_client.py`) -/

/-- An HTTP response as seen by `_request`: status code, parsed
`Retry-After` header (in seconds, `none` when absent or empty), body. -/
structure HttpResp where
  status : ℕ
  retryAfter : Option ℕ
  body : String
deriving DecidableEq, Repr

/-- Errors surfaced by the request layer. -/
inductive ClientErr where
  | rateLimited
  | api (status : ℕ)
  | httpStatus (status : ℕ)
deriving DecidableEq, Repr

/-- The non-429 tail of `KalshiClient._request` (`kalshi_client/client.py`
lines 53-67): status ≥ 400 raises `KalshiAPIError`, 204 yields an empty
body, otherwise the JSON body is returned. -/
def handleResponse (r : HttpResp) : Except ClientErr String :=
  if 400 ≤ r.status then .error (.api r.status)
  else if r.status = 204 then .ok ""
  else .ok r.body

/-- `KalshiClient._request` (`kalshi_client/client.py`, lines 28-67) over a
scripted response sequence `resp` (attempt `k` receives `resp k`).  Returns
the `time.sleep` durations performed and the result.  On 429 with retries
left it sleeps `int(Retry-After)` (2 when the header is absent) and
recurses with one retry fewer; on 429 with no retries left it raises
`KalshiRateLimitError`. -/
def sync_request_aux (resp : ℕ → HttpResp) : ℕ → ℕ → List ℕ × Except ClientErr String
  | retries + 1, k =>
    let r := resp k
    if r.status = 429 then
      let wait := r.retryAfter.getD 2
      let rest := sync_request_aux resp retries (k + 1)
      (wait :: rest.1, rest.2)
    else ([], handleResponse r)
  | 0, k =>
    let r := resp k
    if r.status = 429 then ([], .error .rateLimited)
    else ([], handleResponse r)

/-- `KalshiClient._request` with its default `_retries=3`. -/
def sync_request (resp : ℕ → HttpResp) : List ℕ × Except ClientErr String :=
  sync_request_aux resp 3 0

/-- `KalshiClient._request` of the async suite client
(`kalshi_alpha_suite/kalshi_client.py`, lines 94-112): sign, send once,
`raise_for_status()`, return the JSON body.  No sleeps, no retries. -/
def suite_request (r : HttpResp) : List ℕ × Except ClientErr String :=
  if 400 ≤ r.status then ([], .error (.httpStatus r.status))
  else ([], .ok r.body)

/-- The sleeps a 429 run performs: `Retry-After` of each consecutive 429
response starting at attempt `k`, defaulting to 2. -/
def sleepsFrom (resp : ℕ → HttpResp) : ℕ → ℕ → List ℕ
  | _, 0 => []
  | k, j + 1 => (resp k).retryAfter.getD 2 :: sleepsFrom resp (k + 1) j

/-! ## Spec-side definitions and concrete fixtures -/

/-- The data-model invariant of §3 of the spec, stated from the spec's
words: a YES signal's fair estimate dominates the implied probability, a
NO signal's is dominated by it, and `edge = |fair − implied|`. -/
def signalInvariant (s : Signal) : Prop :=
  (s.side = .yes → s.implied_prob ≤ s.estimated_fair_prob) ∧
  (s.side = .no → s.estimated_fair_prob ≤ s.implied_prob) ∧
  s.edge = |s.estimated_fair_prob - s.implied_prob|

instance (s : Signal) : Decidable (signalInvariant s) := by
  unfold signalInvariant
  infer_instance

/-- `round(implied_prob * 100)` as the spec's order-construction rule
literally states it (Python `round`, ties to even). -/
def specRoundPrice (implied_prob : ℚ) : ℤ :=
  roundHalfEven (implied_prob * 100)

/-- Configuration of end-to-end scenario 1 of §8: fee 0, full Kelly,
$10,000 cap. -/
def cfgScenario1 : SuiteConfig :=
  { paper_trading := true, kalshi_fee_rate := 0, spread_threshold_cents := 3,
    kelly_edge_min := 5/100, nlp_prob_shift_min := 1/10,
    max_position_usd := 10000, kelly_fraction := 1 }

/-- Signal of scenario 1: YES, implied 0.5, fair 0.6. -/
def sigScenario1 : Signal :=
  { source := .orderbook, ticker := "TEST", side := .yes,
    implied_prob := 1/2, estimated_fair_prob := 3/5, edge := 1/10,
    confidence := 1/2, rationale := "test" }

/-- The spec's `net_b = (1/market_price − 1)(1 − fee_rate)`, written from
the claim's words for comparison with the code. -/
def specNetB (cfg : SuiteConfig) (s : Signal) : ℚ :=
  (1 / sideMarketPrice s - 1) * (1 - cfg.kalshi_fee_rate)

/-- The spec's `f* = (p(net_b + 1) − 1) / net_b`. -/
def specFStar (cfg : SuiteConfig) (s : Signal) : ℚ :=
  (sideProb s * (specNetB cfg s + 1) - 1) / specNetB cfg s

/-- The spec's `position_usd = min(max(0, f*·kelly_fraction)·bankroll,
max_position_usd)`. -/
def specPosition (cfg : SuiteConfig) (s : Signal) (bankroll : ℚ) : ℚ :=
  min (max 0 (specFStar cfg s * cfg.kelly_fraction) * bankroll) cfg.max_position_usd

/-- The spec's `net_ev = p·net_b − (1 − p)`. -/
def specNetEv (cfg : SuiteConfig) (s : Signal) : ℚ :=
  sideProb s * specNetB cfg s - (1 - sideProb s)

/-- Counterexample input for the sizing claim: YES signal, implied 0.4,
fair 0.60001 — chosen so that the exact Kelly position (333.3533335 USD)
and net EV (0.500025) have digits beyond the stored precision. -/
def sigC1x : Signal :=
  { source := .arbitrage, ticker := "CX", side := .yes,
    implied_prob := 2/5, estimated_fair_prob := 60001/100000,
    edge := 20001/100000, confidence := 1/2, rationale := "cx" }

/-- Counterexample input for the order-price claim: implied 0.875, an
exactly representable binary float whose 100-multiple ends in .5. -/
def sig875 : Signal :=
  { source := .orderbook, ticker := "PX", side := .yes,
    implied_prob := 7/8, estimated_fair_prob := 9/10, edge := 1/40,
    confidence := 1/2, rationale := "px" }

/-- A go-ahead Kelly result used to drive `build_order` in examples. -/
def kellyGo : KellyResult :=
  { optimal_fraction := 1/5, position_size_usd := 100, net_ev := 1/5,
    should_trade := true }

/-- LLM response counterexample: a syntactically valid JSON *object* (not
an array) carrying all required analysis fields. -/
def jsonObjExample : Json :=
  .obj [("ticker_keyword", .str "CPI"), ("side", .str "yes"),
        ("prob_shift", .num (1/5)), ("confidence", .num (9/10)),
        ("rationale", .str "cpi print hot")]

/-- The raw signal Python builds from `jsonObjExample` after wrapping. -/
def rawCPI : NLPSignalRaw :=
  { ticker_keyword := "CPI", side := "yes", prob_shift := 1/5,
    confidence := 9/10, rationale := "cpi print hot" }

/-- Scripted response sequence for the retry witness: one 429 with
`Retry-After: 1`, then a 200. -/
def respWitness : ℕ → HttpResp :=
  fun k => if k = 0 then { status := 429, retryAfter := some 1, body := "" }
           else { status := 200, retryAfter := none, body := "ok" }

/-- A concrete paper order used in execution witnesses. -/
def orderPaperW : TradeOrder :=
  { ticker := "TEST", side := .yes, contracts := 2, limit_price_cents := 40,
    signal := sigScenario1, kelly := kellyGo, paper := true,
    timestamp := "2026-01-01T00:00:00+00:00" }

/-- The signal the orderbook scanner emits for the §8 liquidity-void book
(YES bids `[[40,100]]`, NO bids `[[55,80]]`, threshold 3). -/
def sigVoid4055 : Signal :=
  { source := .orderbook, ticker := "KXTEST", side := .yes,
    implied_prob := 2/5, estimated_fair_prob := 17/40, edge := 1/40,
    confidence := 1/2, rationale := "Liquidity void" }

/-- The signal the orderbook scanner emits for a book with *no* YES bids
and NO bids `[[55,80]]`: implied falls back to 0.5 while the midpoint
estimate is 45/200. -/
def sigVoidNoYes : Signal :=
  { source := .orderbook, ticker := "KXVOID", side := .yes,
    implied_prob := 1/2, estimated_fair_prob := 9/40, edge := -(11/40),
    confidence := 1, rationale := "Liquidity void" }

/-- The YES arbitrage signal for a Kalshi price of 0.40 against an
external probability of 0.60. -/
def sigArbW : Signal :=
  { source := .arbitrage, ticker := "ARBW", side := .yes,
    implied_prob := 2/5, estimated_fair_prob := 3/5, edge := 1/5,
    confidence := 1/3, rationale := "Cross-platform arb" }

/-- A raw NLP item with a negative probability shift. -/
def rawShiftNeg : NLPSignalRaw :=
  { ticker_keyword := "CPI", side := "no", prob_shift := -(3/20),
    confidence := 7/10, rationale := "soft print" }

/-- The NO arbitrage signal for a Kalshi price of 0.60 against an external
probability of 0.40: the stored fair estimate `1 − ext = 0.6` coincides
with the YES-space implied probability 0.6, yet the stored edge is the raw
price gap 0.2. -/
def sigArbNo : Signal :=
  { source := .arbitrage, ticker := "ARBNO", side := .no,
    implied_prob := 3/5, estimated_fair_prob := 3/5, edge := 1/5,
    confidence := 1/3, rationale := "Cross-platform arb" }

/-! ## Theorems -/

/-- C10: both standalone Kelly helpers guard the division: any
non-positive payout ratio yields `0.0` instead of dividing by `b`. -/
theorem c10_kelly_totality (p b : ℚ) (hb : b ≤ 0) :
    kelly_fraction p b = 0 ∧ kelly_criterion p b = 0 := by
  unfold kelly_fraction kelly_criterion
  rw [if_pos hb]
  exact ⟨rfl, rfl⟩

/-- Witness for C10 at `p = 1/2`, `b = -1`. -/
theorem c10_kelly_totality_witness :
    ((-1 : ℚ) ≤ 0) ∧ kelly_fraction (1/2) (-1) = 0 ∧ kelly_criterion (1/2) (-1) = 0 :=
  ⟨by norm_num, c10_kelly_totality (1/2) (-1) (by norm_num)⟩

/-- C8: every order built from a go-ahead Kelly result respects the price
band `[1, 99]` and carries at least one contract. -/
theorem c8_trade_order_bounds (cfg : SuiteConfig) (s : Signal) (k : KellyResult)
    (h : k.should_trade = true) :
    ∃ ord, RiskExecutionAgent.build_order cfg s k = some ord ∧
      1 ≤ ord.limit_price_cents ∧ ord.limit_price_cents ≤ 99 ∧ 1 ≤ ord.contracts := by
  unfold RiskExecutionAgent.build_order
  rw [if_pos h]
  exact ⟨_, rfl, le_max_left 1 _, max_le (by norm_num) (min_le_left _ _),
    le_max_left 1 _⟩

/-- Witness for C8: the scenario-1 signal with a go-ahead Kelly result. -/
theorem c8_trade_order_bounds_witness :
    kellyGo.should_trade = true ∧
    ∃ ord, RiskExecutionAgent.build_order cfgScenario1 sigScenario1 kellyGo = some ord ∧
      1 ≤ ord.limit_price_cents ∧ ord.limit_price_cents ≤ 99 ∧ 1 ≤ ord.contracts :=
  ⟨rfl, c8_trade_order_bounds cfgScenario1 sigScenario1 kellyGo rfl⟩

/-- C7: executing a paper order performs no POST to the orders endpoint,
fills at the limit price, and appends exactly one record (the paper JSONL
line) to the trade journal. -/
theorem c7_paper_isolation (order : TradeOrder) (st : ExecState)
    (h : order.paper = true) :
    (RiskExecutionAgent.execute order st).2.posts = st.posts ∧
    (RiskExecutionAgent.execute order st).1.fill_price_cents =
      some order.limit_price_cents ∧
    (RiskExecutionAgent.execute order st).2.journal =
      st.journal ++ [paperRecord (RiskExecutionAgent.execute order st).1] ∧
    (RiskExecutionAgent.execute order st).2.journal.length =
      st.journal.length + 1 := by
  unfold RiskExecutionAgent.execute
  rw [if_pos h]
  unfold RiskExecutionAgent.paper_execute
  refine ⟨rfl, rfl, rfl, ?_⟩
  simp

/-- Witness for C7 at a concrete paper order and empty effect state. -/
theorem c7_paper_isolation_witness :
    orderPaperW.paper = true ∧
    (RiskExecutionAgent.execute orderPaperW ⟨[], []⟩).2.posts = [] ∧
    (RiskExecutionAgent.execute orderPaperW ⟨[], []⟩).1.fill_price_cents = some 40 ∧
    (RiskExecutionAgent.execute orderPaperW ⟨[], []⟩).2.journal.length = 1 := by
  have h := c7_paper_isolation orderPaperW ⟨[], []⟩ rfl
  exact ⟨rfl, h.1, h.2.1, h.2.2.2⟩

/-- C3 (code bug): `run_cycle` gathers the three producers with
`return_exceptions=False`, so one failing producer aborts the whole cycle:
with the orderbook task raising and the NLP task returning one signal, the
collected result is the propagated exception, not the surviving signal
list the spec's isolation guarantee promises. -/
theorem c3_gather_propagates :
    run_cycle_signals (.error (.exn "orderbook boom")) (.ok [sigScenario1]) (.ok []) =
      .error (.exn "orderbook boom") ∧
    run_cycle_signals (.error (.exn "orderbook boom")) (.ok [sigScenario1]) (.ok []) ≠
      .ok [sigScenario1] := by
  refine ⟨rfl, ?_⟩
  intro h
  exact Except.noConfusion h

/-- Helper: floor of a concrete rational via its bracketing integers. -/
theorem floorEval {q : ℚ} {z : ℤ} (h1 : (z : ℚ) ≤ q) (h2 : q < z + 1) : ⌊q⌋ = z :=
  Int.floor_eq_iff.mpr ⟨h1, h2⟩

/-- Helper: `roundHalfEven` fixes integers. -/
theorem roundHalfEven_intCast (z : ℤ) : roundHalfEven (z : ℚ) = z := by
  unfold roundHalfEven
  rw [Int.floor_intCast]
  norm_num

/-- Helper: the rejection branch of `size` for a market price outside
`(0, 1)`. -/
theorem size_reject (cfg : SuiteConfig) (s : Signal) (bankroll : ℚ)
    (h : sideMarketPrice s ≤ 0 ∨ 1 ≤ sideMarketPrice s) :
    RiskExecutionAgent.size cfg s bankroll =
      { optimal_fraction := 0, position_size_usd := 0, net_ev := 0,
        should_trade := false } := by
  unfold RiskExecutionAgent.size
  rw [if_pos h]

/-- Helper: on the trading branch, `size` returns exactly the spec's
formulas with the stored position and EV rounded to 2 and 4 decimals and
the gate computed from the unrounded values. -/
theorem size_formula (cfg : SuiteConfig) (s : Signal) (bankroll : ℚ)
    (hf1 : cfg.kalshi_fee_rate < 1)
    (h0 : 0 < sideMarketPrice s) (h1 : sideMarketPrice s < 1) :
    RiskExecutionAgent.size cfg s bankroll =
      { optimal_fraction := specFStar cfg s,
        position_size_usd := roundDec 2 (specPosition cfg s bankroll),
        net_ev := roundDec 4 (specNetEv cfg s),
        should_trade := decide (cfg.kelly_edge_min < specFStar cfg s) &&
          decide (0 < specNetEv cfg s) &&
          decide (0 < specPosition cfg s bankroll) } := by
  have hrej : ¬(sideMarketPrice s ≤ 0 ∨ 1 ≤ sideMarketPrice s) := by
    push_neg
    exact ⟨h0, h1⟩
  have hb : 0 < (1 / sideMarketPrice s - 1) * (1 - cfg.kalshi_fee_rate) := by
    apply mul_pos
    · have hd : 1 < 1 / sideMarketPrice s := (one_lt_div h0).mpr h1
      linarith
    · linarith
  simp only [RiskExecutionAgent.size, net_payout_after_fees, kelly_fraction,
    specFStar, specNetB, specPosition, specNetEv]
  rw [if_neg hrej, if_neg (not_le.mpr hb)]

/-- Helper: `roundDec` on a value that is integral at `n` decimals. -/
theorem roundDec_intValue (n : ℕ) (q : ℚ) (z : ℤ) (h : q * 10 ^ n = (z : ℚ)) :
    roundDec n q = z / 10 ^ n := by
  unfold roundDec
  rw [h, roundHalfEven_intCast]

/-- Helper: `roundDec` when the fractional part at `n` decimals is below
one half. -/
theorem roundDec_eval (n : ℕ) (q : ℚ) (z : ℤ) (hfl : ⌊q * 10 ^ n⌋ = z)
    (hfrac : q * 10 ^ n - (z : ℚ) < 1/2) : roundDec n q = z / 10 ^ n := by
  unfold roundDec roundHalfEven
  rw [hfl, if_pos hfrac]

/-- C1 (amended): `size` selects `p`/`market_price` by side, rejects a
market price outside `(0,1)`, and otherwise returns the claimed Kelly
formulas — except that the stored `position_size_usd` and `net_ev` are the
formula values rounded to 2 resp. 4 decimal places (the `should_trade`
gate uses the unrounded values); the even-money 60%-fair scenario returns
`f* = 0.20`, `position_usd = 200.00`, `net_ev = 0.20`, `should_trade`. -/
theorem c1_size_spec :
    (∀ (cfg : SuiteConfig) (s : Signal) (bankroll : ℚ),
      cfg.kalshi_fee_rate < 1 →
      ((sideMarketPrice s ≤ 0 ∨ 1 ≤ sideMarketPrice s →
        RiskExecutionAgent.size cfg s bankroll =
          { optimal_fraction := 0, position_size_usd := 0, net_ev := 0,
            should_trade := false }) ∧
       (0 < sideMarketPrice s → sideMarketPrice s < 1 →
        RiskExecutionAgent.size cfg s bankroll =
          { optimal_fraction := specFStar cfg s,
            position_size_usd := roundDec 2 (specPosition cfg s bankroll),
            net_ev := roundDec 4 (specNetEv cfg s),
            should_trade := decide (cfg.kelly_edge_min < specFStar cfg s) &&
              decide (0 < specNetEv cfg s) &&
              decide (0 < specPosition cfg s bankroll) }))) ∧
    RiskExecutionAgent.size cfgScenario1 sigScenario1 1000 =
      { optimal_fraction := 1/5, position_size_usd := 200, net_ev := 1/5,
        should_trade := true } := by
  constructor
  · intro cfg s bankroll hf1
    exact ⟨size_reject cfg s bankroll, size_formula cfg s bankroll hf1⟩
  · have hfs : specFStar cfgScenario1 sigScenario1 = 1/5 := by
      norm_num [specFStar, specNetB, sideProb, sideMarketPrice, sigScenario1,
        cfgScenario1]
    have hpos : specPosition cfgScenario1 sigScenario1 1000 = 200 := by
      unfold specPosition
      rw [hfs]
      norm_num [min_def, max_def, cfgScenario1]
    have hev : specNetEv cfgScenario1 sigScenario1 = 1/5 := by
      norm_num [specNetEv, specNetB, sideProb, sideMarketPrice, sigScenario1,
        cfgScenario1]
    rw [size_formula cfgScenario1 sigScenario1 1000 (by norm_num [cfgScenario1])
      (by norm_num [sideMarketPrice, sigScenario1])
      (by norm_num [sideMarketPrice, sigScenario1])]
    congr 1
    · rw [hpos, roundDec_intValue 2 200 20000 (by norm_num)]
      norm_num
    · rw [hev, roundDec_intValue 4 (1/5) 2000 (by norm_num)]
      norm_num
    · rw [hfs, hev, hpos]
      simp only [Bool.and_eq_true, decide_eq_true_eq]
      norm_num [cfgScenario1]

/-- C1 counterexample: at implied 0.4, fair 0.60001, bankroll $1000.01
(full Kelly, zero fee) the stored `net_ev` is 0.5000 and the stored
`position_size_usd` is 333.35, while the claim's exact formulas give
0.500025 and 333.3533335 — the stored fields are rounded, so the claimed
equalities fail. -/
theorem c1_counterexample :
    (RiskExecutionAgent.size cfgScenario1 sigC1x (100001/100)).optimal_fraction =
      6667/20000 ∧
    (RiskExecutionAgent.size cfgScenario1 sigC1x (100001/100)).net_ev = 1/2 ∧
    (RiskExecutionAgent.size cfgScenario1 sigC1x (100001/100)).position_size_usd =
      6667/20 ∧
    specNetEv cfgScenario1 sigC1x = 20001/40000 ∧
    specPosition cfgScenario1 sigC1x (100001/100) = 666706667/2000000 ∧
    (1:ℚ)/2 ≠ 20001/40000 ∧
    (6667:ℚ)/20 ≠ 666706667/2000000 := by
  have hfs : specFStar cfgScenario1 sigC1x = 6667/20000 := by
    norm_num [specFStar, specNetB, sideProb, sideMarketPrice, sigC1x, cfgScenario1]
  have hev : specNetEv cfgScenario1 sigC1x = 20001/40000 := by
    norm_num [specNetEv, specNetB, sideProb, sideMarketPrice, sigC1x, cfgScenario1]
  have hpos : specPosition cfgScenario1 sigC1x (100001/100) = 666706667/2000000 := by
    unfold specPosition
    rw [hfs]
    norm_num [min_def, max_def, cfgScenario1]
  have hsz := size_formula cfgScenario1 sigC1x (100001/100)
    (by norm_num [cfgScenario1])
    (by norm_num [sideMarketPrice, sigC1x])
    (by norm_num [sideMarketPrice, sigC1x])
  rw [hsz]
  dsimp only
  rw [hfs, hev, hpos]
  refine ⟨rfl, ?_, ?_, rfl, rfl, by norm_num, by norm_num⟩
  · rw [roundDec_eval 4 (20001/40000) 5000 (floorEval (by norm_num) (by norm_num))
      (by norm_num)]
    norm_num
  · rw [roundDec_eval 2 (666706667/2000000) 33335
      (floorEval (by norm_num) (by norm_num)) (by norm_num)]
    norm_num

/-- Witness for C1 at the scenario-1 inputs, discharging the fee bound and
the open-interval market-price hypotheses. -/
theorem c1_size_spec_witness :
    RiskExecutionAgent.size cfgScenario1 sigScenario1 1000 =
      { optimal_fraction := 1/5, position_size_usd := 200, net_ev := 1/5,
        should_trade := true } ∧
    RiskExecutionAgent.size cfgScenario1 sigScenario1 1000 =
      { optimal_fraction := specFStar cfgScenario1 sigScenario1,
        position_size_usd :=
          roundDec 2 (specPosition cfgScenario1 sigScenario1 1000),
        net_ev := roundDec 4 (specNetEv cfgScenario1 sigScenario1),
        should_trade :=
          decide (cfgScenario1.kelly_edge_min < specFStar cfgScenario1 sigScenario1) &&
          decide (0 < specNetEv cfgScenario1 sigScenario1) &&
          decide (0 < specPosition cfgScenario1 sigScenario1 1000) } :=
  ⟨c1_size_spec.2,
   (c1_size_spec.1 cfgScenario1 sigScenario1 1000 (by norm_num [cfgScenario1])).2
     (by norm_num [sideMarketPrice, sigScenario1])
     (by norm_num [sideMarketPrice, sigScenario1])⟩

/-- Helper: under `max 1 _`, Python truncation and mathematical floor
agree (they differ only on negatives, where both are clamped to 1). -/
theorem max_one_ratTrunc (q : ℚ) : max 1 (ratTrunc q) = max 1 ⌊q⌋ := by
  unfold ratTrunc
  split
  · rfl
  · next h =>
    push_neg at h
    have h1 : ⌊q⌋ ≤ 0 := by
      calc ⌊q⌋ ≤ ⌊(0 : ℚ)⌋ := Int.floor_le_floor h.le
      _ = 0 := Int.floor_zero
    have h2 : 0 ≤ ⌊-q⌋ := by
      calc (0 : ℤ) = ⌊(0 : ℚ)⌋ := Int.floor_zero.symm
      _ ≤ ⌊-q⌋ := Int.floor_le_floor (by linarith)
    rw [max_eq_left (by omega), max_eq_left (by omega)]

/-- C4 (amended): for a go-ahead Kelly result, `build_order` sets the
price to Python `int` truncation (not rounding) of `implied_prob · 100`,
inverted for NO and clamped to `[1, 99]`, and the contract count is
`max(1, floor(position_usd · 100 / price_cents))` as claimed. -/
theorem c4_build_order (cfg : SuiteConfig) (s : Signal) (k : KellyResult)
    (h : k.should_trade = true) :
    ∃ ord, RiskExecutionAgent.build_order cfg s k = some ord ∧
      ord.limit_price_cents =
        max 1 (min 99 (if s.side = .no then 100 - ratTrunc (s.implied_prob * 100)
          else ratTrunc (s.implied_prob * 100))) ∧
      ord.contracts =
        max 1 ⌊k.position_size_usd * 100 / (ord.limit_price_cents : ℚ)⌋ := by
  unfold RiskExecutionAgent.build_order
  rw [if_pos h]
  exact ⟨_, rfl, rfl, max_one_ratTrunc _⟩

/-- C4 counterexample: a YES signal at implied 0.875 (exact in binary
floating point) gets limit price `int(87.5) = 87`, while the claim's
`round(implied·100)` is 88. -/
theorem c4_counterexample :
    (RiskExecutionAgent.build_order {} sig875 kellyGo).map
      (fun o => o.limit_price_cents) = some 87 ∧
    specRoundPrice sig875.implied_prob = 88 ∧
    (87 : ℤ) ≠ 88 := by
  have htr : ratTrunc ((7 : ℚ)/8 * 100) = 87 := by
    unfold ratTrunc
    rw [if_pos (by norm_num)]
    exact floorEval (by norm_num) (by norm_num)
  refine ⟨?_, ?_, by norm_num⟩
  · unfold RiskExecutionAgent.build_order
    rw [if_pos (show kellyGo.should_trade = true from rfl)]
    simp only [Option.map_some']
    refine congrArg some ?_
    show max 1 (min 99 (ratTrunc ((7 : ℚ)/8 * 100))) = 87
    rw [htr]
    decide
  · show roundHalfEven ((7 : ℚ)/8 * 100) = 88
    have hfl : ⌊(7 : ℚ)/8 * 100⌋ = 87 := floorEval (by norm_num) (by norm_num)
    unfold roundHalfEven
    rw [hfl]
    rw [if_neg (by norm_num), if_neg (by norm_num), if_neg (by norm_num)]
    norm_num

/-- Witness for C4 at the implied-0.875 signal with a go-ahead Kelly
result. -/
theorem c4_build_order_witness :
    kellyGo.should_trade = true ∧
    ∃ ord, RiskExecutionAgent.build_order ({} : SuiteConfig) sig875 kellyGo = some ord ∧
      ord.limit_price_cents =
        max 1 (min 99 (if sig875.side = .no then
            100 - ratTrunc (sig875.implied_prob * 100)
          else ratTrunc (sig875.implied_prob * 100))) ∧
      ord.contracts =
        max 1 ⌊kellyGo.position_size_usd * 100 / (ord.limit_price_cents : ℚ)⌋ :=
  ⟨rfl, c4_build_order {} sig875 kellyGo rfl⟩

/-- Helper: literal evaluation of the scanner on the §8 liquidity-void
book. -/
theorem scan_market_void_eval :
    scan_market { spread_threshold_cents := 3 } "KXTEST" [(40, 100)] [(55, 80)] =
      some sigVoid4055 := by
  have hp : parse_orderbook "KXTEST" [(40, 100)] [(55, 80)] =
      some { ticker := "KXTEST", best_yes_bid := 40, best_no_bid := 55,
             synthetic_yes_ask := 45, spread_cents := 5 } := by
    decide
  unfold scan_market
  simp only [hp]
  rw [if_neg (by decide), if_neg (by decide)]
  refine congrArg some ?_
  unfold sigVoid4055
  congr 1 <;> norm_num [min_def]

/-- C5: the §8 liquidity-void book parses to snapshot
`(40, 55, 45, 5)`, the scanner emits the YES signal with implied 0.40,
fair 0.425, confidence 0.5, and in general a spread at or below the
threshold emits no signal. -/
theorem c5_liquidity_void :
    parse_orderbook "KXTEST" [(40, 100)] [(55, 80)] =
      some { ticker := "KXTEST", best_yes_bid := 40, best_no_bid := 55,
             synthetic_yes_ask := 45, spread_cents := 5 } ∧
    scan_market { spread_threshold_cents := 3 } "KXTEST" [(40, 100)] [(55, 80)] =
      some sigVoid4055 ∧
    ∀ (cfg : SuiteConfig) (t : String) (yes no : List (ℤ × ℤ))
      (snap : OrderbookSnapshot),
      parse_orderbook t yes no = some snap →
      snap.spread_cents ≤ cfg.spread_threshold_cents →
      scan_market cfg t yes no = none := by
  refine ⟨by decide, scan_market_void_eval, ?_⟩
  intro cfg t yes no snap hp hsp
  unfold scan_market
  simp only [hp]
  rw [if_pos hsp]

/-- Witness for C5's no-signal branch: a flat book (spread 0) with the
default threshold 3 emits nothing. -/
theorem c5_liquidity_void_witness :
    scan_market ({} : SuiteConfig) "KXFLAT" [(45, 1)] [(55, 1)] = none :=
  c5_liquidity_void.2.2 {} "KXFLAT" [(45, 1)] [(55, 1)]
    { ticker := "KXFLAT", best_yes_bid := 45, best_no_bid := 55,
      synthetic_yes_ask := 45, spread_cents := 0 }
    (by decide) (by decide)

/-- C2 counterexample, violating producers on both carve-outs: a book with
no YES bids and NO bids `[[55, 80]]` makes the scanner emit a YES signal
whose fair estimate 0.225 is *below* the fallback implied probability 0.5
with a negative edge; and a NO-side arbitrage pair (Kalshi 0.60, external
0.40) is emitted with edge 0.2 although `|fair − implied| = 0` — the
claimed invariant fails at both concrete inputs. -/
theorem c2_counterexample :
    (scan_market ({} : SuiteConfig) "KXVOID" [] [(55, 80)] = some sigVoidNoYes ∧
     ¬ signalInvariant sigVoidNoYes) ∧
    (arb_pair_signal ({} : SuiteConfig) "ARBNO" (3/5) (2/5) = some sigArbNo ∧
     ¬ signalInvariant sigArbNo) := by
  refine ⟨⟨?_, ?_⟩, ?_, ?_⟩
  · have hp : parse_orderbook "KXVOID" [] [(55, 80)] =
        some { ticker := "KXVOID", best_yes_bid := 0, best_no_bid := 55,
               synthetic_yes_ask := 45, spread_cents := 45 } := by
      decide
    unfold scan_market
    simp only [hp]
    rw [if_neg (by decide), if_pos (by decide)]
    refine congrArg some ?_
    unfold sigVoidNoYes
    congr 1 <;> norm_num [min_def]
  · intro h
    have h1 := h.1 rfl
    norm_num [sigVoidNoYes] at h1
  · norm_num [arb_pair_signal, arbEmit, kelly_criterion, sigArbNo, min_def]
    decide
  · intro h
    have h3 := h.2.2
    norm_num [sigArbNo] at h3

/-- C2 (amended): the invariant holds for every NLP signal, for every
orderbook signal from a book whose best YES bid is nonzero (given a
nonnegative threshold), and for every YES-side arbitrage signal; it fails
for orderbook signals from books with no YES bids (see the counterexample)
and for NO-side arbitrage signals. -/
theorem c2_signal_invariant :
    (∀ (feed : String) (raw : NLPSignalRaw) (ticker : String),
      signalInvariant (nlp_emit_signal feed raw ticker)) ∧
    (∀ (cfg : SuiteConfig) (t : String) (yes no : List (ℤ × ℤ)) (s : Signal),
      0 ≤ cfg.spread_threshold_cents → bestBid yes ≠ 0 →
      scan_market cfg t yes no = some s → signalInvariant s) ∧
    (∀ (cfg : SuiteConfig) (t : String) (kp ep : ℚ) (s : Signal),
      arb_pair_signal cfg t kp ep = some s → s.side = .yes →
      signalInvariant s) := by
  refine ⟨?_, ?_, ?_⟩
  · intro feed raw ticker
    unfold signalInvariant nlp_emit_signal
    by_cases hs : 0 < raw.prob_shift
    · rw [if_pos hs]
      refine ⟨fun _ => ?_, fun hno => ?_, ?_⟩
      · dsimp only
        linarith
      · exact absurd hno (by simp)
      · dsimp only
        rw [show (1 : ℚ)/2 + raw.prob_shift - 1/2 = raw.prob_shift from by ring]
    · rw [if_neg hs]
      push_neg at hs
      refine ⟨fun hyes => ?_, fun _ => ?_, ?_⟩
      · exact absurd hyes (by simp)
      · dsimp only
        linarith
      · dsimp only
        rw [show (1 : ℚ)/2 + raw.prob_shift - 1/2 = raw.prob_shift from by ring]
  · intro cfg t yes no s hthr hbid hscan
    unfold scan_market at hscan
    split at hscan
    · exact Option.noConfusion hscan
    · next snap hp =>
      split at hscan
      · exact Option.noConfusion hscan
      · next hsp =>
        injection hscan with hs'
        subst hs'
        unfold parse_orderbook at hp
        split at hp
        · exact Option.noConfusion hp
        · injection hp with hsnap
          subst hsnap
          dsimp only at hsp ⊢
          have hpos : (0 : ℤ) <
              (if 0 < bestBid no then 100 - bestBid no else 100) - bestBid yes :=
            lt_of_le_of_lt hthr (not_le.mp hsp)
          have hq : (bestBid yes : ℚ) <
              ((if 0 < bestBid no then 100 - bestBid no else 100 : ℤ) : ℚ) := by
            exact_mod_cast (by omega : bestBid yes <
              (if 0 < bestBid no then 100 - bestBid no else 100))
          unfold signalInvariant
          dsimp only
          rw [if_neg hbid]
          refine ⟨fun _ => by linarith, fun hno => absurd hno (by simp), ?_⟩
          rw [abs_of_nonneg (by linarith)]
  · intro cfg t kp ep s hmk hside
    simp only [arb_pair_signal] at hmk
    by_cases h1 : 0 < ep - kp
    · rw [if_pos h1] at hmk
      simp only [arbEmit] at hmk
      split at hmk
      · exact Option.noConfusion hmk
      · split at hmk
        · exact Option.noConfusion hmk
        · injection hmk with hs'
          subst hs'
          unfold signalInvariant
          dsimp only
          simp only [if_true]
          refine ⟨fun _ => by linarith, fun hno => absurd hno (by simp), ?_⟩
          rw [abs_of_pos h1]
    · rw [if_neg h1] at hmk
      by_cases h2 : ep - kp < 0
      · rw [if_pos h2] at hmk
        simp only [arbEmit] at hmk
        split at hmk
        · exact Option.noConfusion hmk
        · split at hmk
          · exact Option.noConfusion hmk
          · injection hmk with hs'
            subst hs'
            exact absurd hside (by simp)
      · rw [if_neg h2] at hmk
        exact Option.noConfusion hmk

/-- Helper: literal evaluation of the arbitrage pair logic at Kalshi 0.40
versus external 0.60. -/
theorem arb_pair_eval :
    arb_pair_signal ({} : SuiteConfig) "ARBW" (2/5) (3/5) = some sigArbW := by
  norm_num [arb_pair_signal, arbEmit, kelly_criterion, sigArbW, min_def]

/-- Witness for C2 instantiating all three producers: an NLP signal with a
negative shift, the liquidity-void orderbook signal, and a YES arbitrage
signal. -/
theorem c2_signal_invariant_witness :
    signalInvariant (nlp_emit_signal "NOAA_ALERTS" rawShiftNeg "KXHIGH") ∧
    signalInvariant sigVoid4055 ∧
    signalInvariant sigArbW :=
  ⟨c2_signal_invariant.1 "NOAA_ALERTS" rawShiftNeg "KXHIGH",
   c2_signal_invariant.2.1 { spread_threshold_cents := 3 } "KXTEST"
     [(40, 100)] [(55, 80)] sigVoid4055 (by decide) (by decide)
     scan_market_void_eval,
   c2_signal_invariant.2.2 {} "ARBW" (2/5) (3/5) sigArbW arb_pair_eval rfl⟩

/-- Helper: a non-429 response is handled immediately, with no sleep, at
any remaining-retry count. -/
theorem sync_request_aux_no429 (resp : ℕ → HttpResp) (retries k : ℕ)
    (h : (resp k).status ≠ 429) :
    sync_request_aux resp retries k = ([], handleResponse (resp k)) := by
  cases retries with
  | zero =>
    simp only [sync_request_aux]
    rw [if_neg h]
  | succ n =>
    simp only [sync_request_aux]
    rw [if_neg h]

/-- Helper: `j` consecutive 429s followed by a non-429 response yield that
response's handling after sleeping each `Retry-After`. -/
theorem sync_request_aux_success (resp : ℕ → HttpResp) :
    ∀ (j retries k : ℕ), j ≤ retries →
      (∀ i, i < j → (resp (k + i)).status = 429) →
      (resp (k + j)).status ≠ 429 →
      sync_request_aux resp retries k =
        (sleepsFrom resp k j, handleResponse (resp (k + j))) := by
  intro j
  induction j with
  | zero =>
    intro retries k _ _ hend
    simp only [sleepsFrom]
    simpa using sync_request_aux_no429 resp retries k (by simpa using hend)
  | succ j ih =>
    intro retries k hle h429 hend
    match retries, hle with
    | r + 1, hle =>
      have h0 : (resp k).status = 429 := by
        simpa using h429 0 (Nat.succ_pos j)
      have hrec := ih r (k + 1) (Nat.succ_le_succ_iff.mp hle)
        (fun i hi => by
          have hh := h429 (i + 1) (Nat.succ_lt_succ hi)
          rwa [show k + (i + 1) = k + 1 + i from by omega] at hh)
        (by rwa [show k + (j + 1) = k + 1 + j from by omega] at hend)
      simp only [sync_request_aux]
      rw [if_pos h0, hrec]
      simp only [sleepsFrom]
      rw [show k + (j + 1) = k + 1 + j from by omega]

/-- Helper: a permanent 429 burns every retry with a sleep each and
surfaces `RateLimited`. -/
theorem sync_request_aux_exhaust (resp : ℕ → HttpResp)
    (hall : ∀ i, (resp i).status = 429) :
    ∀ (retries k : ℕ),
      sync_request_aux resp retries k =
        (sleepsFrom resp k retries, .error .rateLimited) := by
  intro retries
  induction retries with
  | zero =>
    intro k
    simp only [sync_request_aux, sleepsFrom]
    rw [if_pos (hall k)]
  | succ r ih =>
    intro k
    simp only [sync_request_aux, sleepsFrom]
    rw [if_pos (hall k), ih (k + 1)]

/-- C6 (amended): the synchronous client (`kalshi_client/client.py`)
behaves as claimed — it sleeps the `Retry-After` of each 429 (2 when the
header is absent), retries up to 3 times, surfaces `RateLimited` on
exhaustion, and returns the body of an eventual non-429 response; the
async suite client (`kalshi_alpha_suite/kalshi_client.py`), however, never
sleeps and surfaces a 429 immediately as a plain HTTP status error. -/
theorem c6_rate_limit :
    (∀ (resp : ℕ → HttpResp) (j : ℕ), j ≤ 3 →
      (∀ i, i < j → (resp i).status = 429) → (resp j).status ≠ 429 →
      sync_request resp = (sleepsFrom resp 0 j, handleResponse (resp j))) ∧
    (∀ resp : ℕ → HttpResp, (∀ i, (resp i).status = 429) →
      sync_request resp = (sleepsFrom resp 0 3, .error .rateLimited)) ∧
    (∀ r : HttpResp, (suite_request r).1 = [] ∧
      (r.status = 429 → suite_request r = ([], .error (.httpStatus 429)))) := by
  refine ⟨?_, ?_, ?_⟩
  · intro resp j hle h429 hend
    unfold sync_request
    have h := sync_request_aux_success resp j 3 0 hle
      (fun i hi => by simpa using h429 i hi) (by simpa using hend)
    simpa using h
  · intro resp hall
    exact sync_request_aux_exhaust resp hall 3 0
  · intro r
    constructor
    · unfold suite_request
      split <;> rfl
    · intro h429
      unfold suite_request
      rw [if_pos (by omega : 400 ≤ r.status), h429]

/-- C6 counterexample: the async suite client, given a 429 with
`Retry-After: 1`, performs no sleep and surfaces a plain HTTP status
error, not the sleep-and-retry behaviour the claim ascribes to every
request. -/
theorem c6_counterexample :
    suite_request { status := 429, retryAfter := some 1, body := "" } =
      ([], .error (.httpStatus 429)) ∧
    (suite_request { status := 429, retryAfter := some 1, body := "" }).1 = [] ∧
    (Except.error (ClientErr.httpStatus 429) : Except ClientErr String) ≠
      .error .rateLimited := by
  refine ⟨rfl, rfl, ?_⟩
  intro h
  injection h with h'
  exact ClientErr.noConfusion h'

/-- Witness for C6: one 429 with `Retry-After: 1` then a 200 yields one
one-second sleep and the 200 body. -/
theorem c6_rate_limit_witness :
    sync_request respWitness = ([1], Except.ok "ok") := by
  have h := c6_rate_limit.1 respWitness 1 (by omega)
    (fun i hi => by
      have h0 : i = 0 := by omega
      subst h0
      rfl)
    (by decide)
  rw [h]
  rfl

/-- Helper: `filterMap` over a one-element list. -/
theorem filterMap_singleton {α β : Type} (f : α → Option β) (a : α) :
    List.filterMap f [a] = (f a).toList := by
  cases h : f a <;> simp [List.filterMap_cons, h]

/-- C9 (amended): a response that fails JSON parsing is discarded (no raw
items); a response that parses to a non-array value is *not* discarded but
wrapped into a one-element list (`parsed = [parsed]`) and processed
item-wise; an array is processed item-wise. -/
theorem c9_llm_response (v : Json) (hv : ∀ xs, v ≠ Json.arr xs) :
    analyze_response none = [] ∧
    analyze_response (some v) = (parseRawItem v).toList ∧
    ∀ xs, analyze_response (some (Json.arr xs)) = xs.filterMap parseRawItem := by
  refine ⟨rfl, ?_, fun xs => rfl⟩
  cases v with
  | arr xs => exact absurd rfl (hv xs)
  | null =>
    unfold analyze_response
    exact filterMap_singleton parseRawItem _
  | bool b =>
    unfold analyze_response
    exact filterMap_singleton parseRawItem _
  | num q =>
    unfold analyze_response
    exact filterMap_singleton parseRawItem _
  | str s =>
    unfold analyze_response
    exact filterMap_singleton parseRawItem _
  | obj fields =>
    unfold analyze_response
    exact filterMap_singleton parseRawItem _

/-- C9 counterexample: a fully-formed JSON *object* response yields one
raw signal instead of being discarded. -/
theorem c9_counterexample :
    analyze_response (some jsonObjExample) = [rawCPI] ∧
    [rawCPI] ≠ ([] : List NLPSignalRaw) := by
  constructor
  · rfl
  · intro h
    exact List.noConfusion h

/-- Witness for C9 at the non-array value `null`. -/
theorem c9_llm_response_witness :
    (∀ xs, Json.null ≠ Json.arr xs) ∧ analyze_response (some Json.null) = [] := by
  have hv : ∀ xs, Json.null ≠ Json.arr xs := fun xs h => Json.noConfusion h
  exact ⟨hv, ((c9_llm_response Json.null hv).2.1).trans rfl⟩
